import Mathlib

/-!
Verification of the ComplianceGuard check-execution framework.

The embedding follows the Python sources:
* `src/src/checks/base_check.py` — `CheckStatus`, `Severity`, `BaseCheck.run`
* `src/dashboard.py` — `run_all_checks`, `calculate_stats`, the category grouping
* `src/src/checks/network/firewall_check.py` — `FirewallCheck`
* `src/src/checks/system/software_updates.py` — `SoftwareUpdatesCheck`

A probe's `check()` interacts with the operating environment (subprocess
output, files); those ambient inputs appear as explicit parameters.  A
`check()` call either returns a dictionary or raises; it is embedded as an
`Except String CheckOutcome` value carried by the probe.  `datetime.now()`
is an explicit `now` parameter.  Python dictionary keys that may be absent
are `Option` fields (`none` = key absent); `dict.get` collapses an absent
key and a stored `None`, which the `Option` model matches.
-/

namespace ComplianceGuard

/-- `CheckStatus` from `base_check.py`: status of a security check. -/
inductive CheckStatus where
  | PASS
  | FAIL
  | WARNING
  | ERROR
  | NOT_APPLICABLE
deriving DecidableEq, Repr

/-- The `.value` string of a `CheckStatus` member. -/
def CheckStatus.value : CheckStatus → String
  | .PASS => "PASS"
  | .FAIL => "FAIL"
  | .WARNING => "WARNING"
  | .ERROR => "ERROR"
  | .NOT_APPLICABLE => "NOT_APPLICABLE"

/-- `Severity` from `base_check.py`: severity levels for findings. -/
inductive Severity where
  | CRITICAL
  | HIGH
  | MEDIUM
  | LOW
  | INFO
deriving DecidableEq, Repr

/-- The `.value` string of a `Severity` member. -/
def Severity.value : Severity → String
  | .CRITICAL => "CRITICAL"
  | .HIGH => "HIGH"
  | .MEDIUM => "MEDIUM"
  | .LOW => "LOW"
  | .INFO => "INFO"

/-- Opaque structured payload carried in the `evidence` field of a check
result (a Python value: string, integer, boolean, list or dict). -/
inductive Value where
  | str : String → Value
  | int : Int → Value
  | bool : Bool → Value
  | list : List Value → Value
  | dict : List (String × Value) → Value

/-- The dictionary a probe's `check()` returns (`base_check.py` docstring):
keys `status`, `finding`, `evidence`, `risk`, `remediation`, each of which
a concrete probe may omit (`none` = key absent). -/
structure CheckOutcome where
  status : Option CheckStatus := none
  finding : Option String := none
  evidence : Option Value := none
  risk : Option String := none
  remediation : Option String := none

/-- A probe: the static metadata set in `BaseCheck.__init__` (specialised by
each concrete check's `__init__`) together with the behaviour of its
`check()` call — either the returned dictionary or the raised exception's
message. -/
structure Probe where
  id : String := ""
  title : String := ""
  description : String := ""
  category : String := ""
  severity : Severity := Severity.MEDIUM
  compliance_frameworks : List String := []
  remediation : String := ""
  check : Except String CheckOutcome

/-- The complete check result dictionary built by `BaseCheck.run`.
`compliance_frameworks` is an `Option` because the fault-path dictionary in
`run` does not contain that key.  `timestamp` is an `Option` so that its
non-nullness is a provable fact rather than a typing artifact. -/
structure CheckResult where
  id : String
  title : String
  description : String
  category : String
  severity : Severity
  compliance_frameworks : Option (List String)
  status : CheckStatus
  finding : String
  evidence : Option Value
  risk : String
  remediation : String
  timestamp : Option String
  error : Option String

namespace BaseCheck

/-- The dictionary built in the `try` block of `BaseCheck.run` once
`check()` has returned `result` normally (lines 72–86 of
`base_check.py`). -/
def successResult (p : Probe) (result : CheckOutcome) (now : String) : CheckResult :=
  { id := p.id
    title := p.title
    description := p.description
    category := p.category
    severity := p.severity
    compliance_frameworks := some p.compliance_frameworks
    status := result.status.getD CheckStatus.ERROR
    finding := result.finding.getD "No finding recorded"
    evidence := result.evidence
    risk := result.risk.getD ""
    remediation := result.remediation.getD p.remediation
    timestamp := some now
    error := none }

/-- The dictionary built in the `except Exception` handler of
`BaseCheck.run` (lines 88–102 of `base_check.py`); note the absence of the
`compliance_frameworks` key. -/
def errorResult (p : Probe) (e : String) (now : String) : CheckResult :=
  { id := p.id
    title := p.title
    description := p.description
    category := p.category
    severity := p.severity
    compliance_frameworks := none
    status := CheckStatus.ERROR
    finding := "Check execution failed"
    evidence := none
    risk := ""
    remediation := ""
    timestamp := some now
    error := some e }

/-- The `try` block of `BaseCheck.run`: call `check()` (which may raise),
then build the success dictionary. -/
def tryBody (p : Probe) (now : String) : Except String CheckResult := do
  let result ← p.check
  pure (successResult p result now)

/-- `BaseCheck.run`: the `try` block, with any exception recovered by the
`except Exception` handler.  The `Except` codomain records whether the call
itself can raise. -/
def run (p : Probe) (now : String) : Except String CheckResult :=
  match tryBody p now with
  | Except.ok r => Except.ok r
  | Except.error e => Except.ok (errorResult p e now)

/-- The value `BaseCheck.run` hands back to its caller. -/
def runResult (p : Probe) (now : String) : CheckResult :=
  match p.check with
  | Except.ok result => successResult p result now
  | Except.error e => errorResult p e now

end BaseCheck

namespace Dashboard

/-- The result-collection loop of `run_all_checks` in `dashboard.py`
(lines 59–82): iterate over the probe list, run each, and append its result
to `results`.  The probe list is the `checks` list built at the top of the
function; progress-bar calls are presentation side effects with no bearing
on the returned list. -/
def run_all_checks (checks : List Probe) (now : String) : List CheckResult :=
  checks.foldl (fun results check => results ++ [BaseCheck.runResult check now]) []

/-- Python's `round` ties to the nearest even integer. -/
def pyRoundInt (q : ℚ) : ℤ :=
  let n := ⌊q⌋
  let frac := q - n
  if frac < 1 / 2 then n
  else if 1 / 2 < frac then n + 1
  else if n % 2 = 0 then n else n + 1

/-- Python's `round(x, 1)`: round to one decimal place, ties to even. -/
def pyRound1 (q : ℚ) : ℚ := (pyRoundInt (q * 10) : ℚ) / 10

/-- The statistics dictionary returned by `calculate_stats`. -/
structure Stats where
  total : Nat
  passed : Nat
  failed : Nat
  warnings : Nat
  compliance_score : ℚ

/-- `calculate_stats` from `dashboard.py` (lines 85–100): count results by
status string and compute the rounded compliance score, guarding the
zero-total case. -/
def calculate_stats (results : List CheckResult) : Stats :=
  let total := results.length
  let passed := results.countP (fun r => r.status.value == "PASS")
  let failed := results.countP (fun r => r.status.value == "FAIL")
  let warnings := results.countP (fun r => r.status.value == "WARNING")
  let compliance_score : ℚ := if total > 0 then (passed : ℚ) / (total : ℚ) * 100 else 0
  { total := total
    passed := passed
    failed := failed
    warnings := warnings
    compliance_score := pyRound1 compliance_score }

/-- The category-grouping loop in `dashboard.py` `main` (lines 219–224):
build an insertion-ordered association list from category to the results
carrying it, appending each result to its category's list. -/
def groupByCategory (results : List CheckResult) : List (String × List CheckResult) :=
  results.foldl
    (fun categories result =>
      if result.category ∈ categories.map Prod.fst then
        categories.map
          (fun g => if g.fst = result.category then (g.fst, g.snd ++ [result]) else g)
      else categories ++ [(result.category, [result])])
    []

/-- Keys in first-seen order: duplicates removed keeping the first
occurrence.  Characterises the insertion order of the grouping dict. -/
def firstSeen (cs : List String) : List String :=
  cs.foldl (fun acc c => if c ∈ acc then acc else acc ++ [c]) []

end Dashboard

/-- Python's `str.lower()`. -/
def pyLower (s : String) : String := String.mk (s.data.map Char.toLower)

/-- Python's `str.strip()`: drop whitespace from both ends. -/
def pyStrip (s : String) : String :=
  String.mk ((s.data.dropWhile Char.isWhitespace).reverse.dropWhile Char.isWhitespace).reverse

/-- Python's substring test `sub in s`: some suffix of `s` starts with
`sub`. -/
def pyIn (sub s : String) : Bool := s.data.tails.any (fun t => sub.data.isPrefixOf t)

/-- Python's `str.split(sep)` for a single-character separator. -/
def splitOnChar (sep : Char) : List Char → List (List Char)
  | [] => [[]]
  | c :: rest =>
    if c = sep then [] :: splitOnChar sep rest
    else
      match splitOnChar sep rest with
      | g :: gs => (c :: g) :: gs
      | [] => [[c]]

/-- Everything after the first occurrence of `sep`: Python's
`s.split(sep, 1)[1]` when `sep in s`. -/
def afterChar (sep : Char) : List Char → List Char
  | [] => []
  | c :: rest => if c = sep then rest else afterChar sep rest

namespace FirewallCheck

/-- `FirewallCheck.check` from `firewall_check.py`.  The two subprocess
calls appear as parameters: each is the captured stdout or the raised
exception's message; any raise inside the `try` lands in the
`except Exception` branch. -/
def check (globalState stealth : Except String String) : CheckOutcome :=
  match globalState with
  | Except.error e =>
    { status := some CheckStatus.ERROR
      finding := some "Could not check firewall status"
      evidence := some (Value.dict [("error", Value.str e)])
      risk := some "Unable to verify firewall configuration" }
  | Except.ok stdout =>
    let output := pyLower (pyStrip stdout)
    if pyIn "enabled" output then
      match stealth with
      | Except.error e =>
        { status := some CheckStatus.ERROR
          finding := some "Could not check firewall status"
          evidence := some (Value.dict [("error", Value.str e)])
          risk := some "Unable to verify firewall configuration" }
      | Except.ok stealthOut =>
        let stealth_enabled := pyIn "enabled" (pyLower stealthOut)
        { status := some CheckStatus.PASS
          finding := some "Firewall is enabled"
          evidence := some (Value.dict
            [("firewall_enabled", Value.bool true),
             ("stealth_mode", Value.bool stealth_enabled),
             ("output", Value.str stdout)])
          risk := some "None" }
    else
      { status := some CheckStatus.FAIL
        finding := some "Firewall is DISABLED"
        evidence := some (Value.dict
          [("firewall_enabled", Value.bool false),
           ("output", Value.str stdout)])
        risk := some "System is vulnerable to network-based attacks. Unauthorized network connections can be established." }

/-- A `FirewallCheck` instance: the static metadata from
`FirewallCheck.__init__`, with `check()` behaving per the given subprocess
results.  `check()` catches its own exceptions, so it always returns a
dictionary. -/
def probe (globalState stealth : Except String String) : Probe :=
  { id := "CIS-2.1.1"
    title := "Ensure Firewall Is Enabled"
    description := "The macOS Application Firewall provides protection against network-based attacks"
    category := "Network Security"
    severity := Severity.HIGH
    compliance_frameworks := ["CIS_macOS_14", "NIST_CSF_PR.AC-5", "ISO27001_A.13.1.1"]
    remediation := "\nTo enable the firewall:\n1. Open System Settings → Network → Firewall\n2. Toggle Firewall to ON\n3. Click Options to configure firewall settings\n4. Or run: sudo /usr/libexec/ApplicationFirewall/socketfilterfw --setglobalstate on\n"
    check := Except.ok (check globalState stealth) }

end FirewallCheck

namespace SoftwareUpdatesCheck

/-- Outcome of the `subprocess.run(['softwareupdate', '-l'], ...)` call:
captured stdout, a `subprocess.TimeoutExpired`, or another exception. -/
inductive SubprocessOutcome where
  | ok (stdout : String)
  | timeout
  | err (msg : String)

/-- `SoftwareUpdatesCheck._parse_updates`: collect update names from lines
starting with `*` or `Label:`. -/
def _parse_updates (output : String) : List String :=
  let lines := (splitOnChar '\n' output.data).map String.mk
  lines.foldl
    (fun updates line =>
      let line := pyStrip line
      if "*".data.isPrefixOf line.data || "Label:".data.isPrefixOf line.data then
        let update_name :=
          if pyIn ":" line then
            pyStrip (String.mk (afterChar ':' line.data))
          else
            pyStrip (String.mk (line.data.dropWhile (fun c => c = '*' || c = ' ')))
        if update_name ≠ "" then updates ++ [update_name] else updates
      else updates)
    []

/-- `SoftwareUpdatesCheck.check` from `software_updates.py`, as a function
of the `softwareupdate -l` subprocess outcome. -/
def check (res : SubprocessOutcome) : CheckOutcome :=
  match res with
  | SubprocessOutcome.ok stdout =>
    let output := pyLower stdout
    if pyIn "no new software available" output || pyIn "no updates available" output then
      { status := some CheckStatus.PASS
        finding := some "System is up to date - no pending updates"
        evidence := some (Value.dict
          [("updates_available", Value.int 0),
           ("output", Value.str (stdout.take 200))])
        risk := some "None" }
    else
      let updates := _parse_updates stdout
      let has_security_updates := updates.any (fun u => pyIn "security" (pyLower u))
      let severity_msg :=
        if has_security_updates then "CRITICAL - Security updates available"
        else toString updates.length ++ " update(s) available"
      { status := some CheckStatus.FAIL
        finding := some severity_msg
        evidence := some (Value.dict
          [("updates_available", Value.int updates.length),
           ("updates", Value.list ((updates.take 5).map Value.str)),
           ("has_security_updates", Value.bool has_security_updates)])
        risk := some "Outdated software may contain known vulnerabilities that can be exploited by attackers" }
  | SubprocessOutcome.timeout =>
    { status := some CheckStatus.ERROR
      finding := some "Software update check timed out"
      evidence := some (Value.dict [("error", Value.str "Command timeout after 30 seconds")])
      risk := some "Unable to verify update status" }
  | SubprocessOutcome.err e =>
    { status := some CheckStatus.ERROR
      finding := some "Could not check software updates"
      evidence := some (Value.dict [("error", Value.str e)])
      risk := some "Unable to verify update status" }

/-- A `SoftwareUpdatesCheck` instance: the static metadata from
`SoftwareUpdatesCheck.__init__`, with `check()` behaving per the given
subprocess outcome. -/
def probe (res : SubprocessOutcome) : Probe :=
  { id := "CIS-1.1"
    title := "Ensure All Apple-Provided Software Is Current"
    description := "Software updates often contain security patches for vulnerabilities"
    category := "System Updates"
    severity := Severity.HIGH
    compliance_frameworks := ["CIS_macOS_14", "NIST_CSF_PR.IP-12", "ISO27001_A.12.6.1"]
    remediation := "\nTo install updates:\n1. Open System Settings → General → Software Update\n2. Install all available updates\n3. Or run: sudo softwareupdate -ia --restart\n4. Enable automatic updates for security patches\n"
    check := Except.ok (check res) }

end SoftwareUpdatesCheck

/-- A probe whose `check()` raises — the faulting probe of the spec's §8
scenario ("one raises a fault"). -/
def faultingProbe : Probe :=
  { id := "TEST-3"
    title := "Faulting probe"
    category := "Test"
    check := Except.error "boom" }

/-- A probe whose `check()` returns an empty dictionary — exercises every
default of the wrapper's success path. -/
def emptyOutcomeProbe : Probe :=
  { id := "TEST-0"
    title := "Empty outcome probe"
    category := "Test"
    remediation := "static default remediation"
    check := Except.ok {} }

/-- A probe whose `check()` returns a PASS dictionary with no `risk` key. -/
def passNoRiskProbe : Probe :=
  { id := "TEST-1"
    title := "Passing probe"
    category := "Test"
    check := Except.ok { status := some CheckStatus.PASS, finding := some "all good" } }

/-- A `FirewallCheck` whose `socketfilterfw --getglobalstate` call reports
the firewall enabled. -/
def firewallEnabledProbe : Probe :=
  FirewallCheck.probe (Except.ok "Firewall is enabled. (State = 1)")
    (Except.ok "Stealth mode disabled")

/-- A `SoftwareUpdatesCheck` whose `softwareupdate -l` call times out, so
`check()` returns an `ERROR` dictionary normally instead of raising. -/
def softwareUpdatesTimeoutProbe : Probe :=
  SoftwareUpdatesCheck.probe SoftwareUpdatesCheck.SubprocessOutcome.timeout

/-- A synthetic result list entry with the given status and category, for
instantiating the aggregator theorems. -/
def sampleResult (s : CheckStatus) (cat : String) : CheckResult :=
  { id := "TEST"
    title := "sample"
    description := ""
    category := cat
    severity := Severity.MEDIUM
    compliance_frameworks := some []
    status := s
    finding := "finding"
    evidence := none
    risk := ""
    remediation := ""
    timestamp := some "t"
    error := none }

end ComplianceGuard

namespace ComplianceGuard

theorem BaseCheck.run_eq_ok (p : Probe) (now : String) :
    BaseCheck.run p now = Except.ok (BaseCheck.runResult p now) := by
  unfold BaseCheck.run BaseCheck.tryBody BaseCheck.runResult
  cases p.check <;> rfl

/-- C1: for every probe whose `check()` either returns a dictionary or
raises an exception, the wrapper `run()` itself never raises and returns
exactly one complete result dictionary, whether the probe completed,
returned a partial outcome, or faulted. -/
theorem run_never_raises (p : Probe) (now : String) :
    ∃ r : CheckResult, BaseCheck.run p now = Except.ok r :=
  ⟨BaseCheck.runResult p now, BaseCheck.run_eq_ok p now⟩

/-- C2: for every probe whose `check()` raises, `run()` returns a result
with status `ERROR`, finding `"Check execution failed"`, null evidence, a
non-null error describing the fault, empty remediation, and a non-null
timestamp. -/
theorem run_fault_result (p : Probe) (e now : String)
    (h : p.check = Except.error e) :
    ∃ r : CheckResult, BaseCheck.run p now = Except.ok r
      ∧ r.status = CheckStatus.ERROR
      ∧ r.finding = "Check execution failed"
      ∧ r.evidence = none
      ∧ r.error = some e
      ∧ r.remediation = ""
      ∧ r.timestamp = some now := by
  refine ⟨BaseCheck.runResult p now, BaseCheck.run_eq_ok p now, ?_⟩
  unfold BaseCheck.runResult
  rw [h]
  exact ⟨rfl, rfl, rfl, rfl, rfl, rfl⟩

/-- C2 witness: the fault-path result at a concrete faulting probe. -/
theorem run_fault_result_witness :
    ∃ r : CheckResult,
      BaseCheck.run faultingProbe "2024-01-01T00:00:00" = Except.ok r
      ∧ r.status = CheckStatus.ERROR
      ∧ r.finding = "Check execution failed"
      ∧ r.evidence = none
      ∧ r.error = some "boom"
      ∧ r.remediation = ""
      ∧ r.timestamp = some "2024-01-01T00:00:00" :=
  run_fault_result faultingProbe "boom" "2024-01-01T00:00:00" rfl

/-- C9: for every probe whose `check()` returns normally, `run()` merges
the returned fields onto the probe's static metadata, defaulting `finding`
to `"No finding recorded"` and `remediation` to the probe's static default
when the outcome omits them, stamping a timestamp, and leaving `error`
null. -/
theorem run_success_merges (p : Probe) (o : CheckOutcome) (now : String)
    (h : p.check = Except.ok o) :
    ∃ r : CheckResult, BaseCheck.run p now = Except.ok r
      ∧ r.id = p.id
      ∧ r.title = p.title
      ∧ r.description = p.description
      ∧ r.category = p.category
      ∧ r.severity = p.severity
      ∧ r.compliance_frameworks = some p.compliance_frameworks
      ∧ r.finding = o.finding.getD "No finding recorded"
      ∧ r.remediation = o.remediation.getD p.remediation
      ∧ r.timestamp = some now
      ∧ r.error = none := by
  refine ⟨BaseCheck.runResult p now, BaseCheck.run_eq_ok p now, ?_⟩
  unfold BaseCheck.runResult
  rw [h]
  exact ⟨rfl, rfl, rfl, rfl, rfl, rfl, rfl, rfl, rfl, rfl⟩

/-- C9 witness: the success-path merge at a probe returning an empty
dictionary, exercising both defaults. -/
theorem run_success_merges_witness :
    ∃ r : CheckResult, BaseCheck.run emptyOutcomeProbe "t" = Except.ok r
      ∧ r.id = emptyOutcomeProbe.id
      ∧ r.title = emptyOutcomeProbe.title
      ∧ r.description = emptyOutcomeProbe.description
      ∧ r.category = emptyOutcomeProbe.category
      ∧ r.severity = emptyOutcomeProbe.severity
      ∧ r.compliance_frameworks = some emptyOutcomeProbe.compliance_frameworks
      ∧ r.finding = Option.getD none "No finding recorded"
      ∧ r.remediation = Option.getD none emptyOutcomeProbe.remediation
      ∧ r.timestamp = some "t"
      ∧ r.error = none :=
  run_success_merges emptyOutcomeProbe {} "t" rfl

/-- C10: the fault-path result dictionary carries no
`compliance_frameworks` key, while every success-path result does. -/
theorem run_compliance_frameworks_key (p : Probe) (now : String) :
    (BaseCheck.runResult p now).compliance_frameworks
      = (match p.check with
         | Except.ok _ => some p.compliance_frameworks
         | Except.error _ => none) := by
  unfold BaseCheck.runResult
  cases p.check <;> rfl

/-- C6 counterexample: a `FirewallCheck` run whose result has status `PASS`
and whose `risk` field is the non-empty string `"None"`. -/
theorem pass_risk_counterexample :
    (BaseCheck.runResult firewallEnabledProbe "t").status = CheckStatus.PASS
    ∧ (BaseCheck.runResult firewallEnabledProbe "t").risk ≠ "" := by
  exact ⟨by decide, by decide⟩

/-- C6 amended: for every probe execution whose result has status `PASS`
and whose `check()` outcome omitted the `risk` key, the `risk` field of the
result is empty (probes may themselves supply a non-empty `risk` such as
`"None"` on a `PASS`). -/
theorem pass_risk_default_empty (p : Probe) (o : CheckOutcome) (now : String)
    (h : p.check = Except.ok o) (hrisk : o.risk = none)
    (_hpass : (BaseCheck.runResult p now).status = CheckStatus.PASS) :
    (BaseCheck.runResult p now).risk = "" := by
  unfold BaseCheck.runResult
  rw [h]
  simp [BaseCheck.successResult, hrisk]

/-- C6 amended witness: a concrete `PASS` outcome without a `risk` key. -/
theorem pass_risk_default_empty_witness :
    (BaseCheck.runResult passNoRiskProbe "t").risk = "" :=
  pass_risk_default_empty passNoRiskProbe
    { status := some CheckStatus.PASS, finding := some "all good" } "t" rfl rfl
    (by decide)

/-- C7 counterexample: a `SoftwareUpdatesCheck` whose `check()` returns an
`ERROR` dictionary normally (timeout branch); the wrapped result has status
`ERROR` but a null `error` field. -/
theorem error_null_error_counterexample :
    (BaseCheck.runResult softwareUpdatesTimeoutProbe "t").status = CheckStatus.ERROR
    ∧ (BaseCheck.runResult softwareUpdatesTimeoutProbe "t").error = none := by
  exact ⟨by decide, rfl⟩

/-- C7 amended: an `ERROR` result synthesized from a raised exception
always carries a non-null `error` field, but when `check()` returns an
`ERROR` status normally the wrapper leaves `error` null. -/
theorem error_field_by_path (p : Probe) (now : String) :
    (∀ e, p.check = Except.error e →
      (BaseCheck.runResult p now).status = CheckStatus.ERROR
        ∧ (BaseCheck.runResult p now).error = some e)
    ∧ (∀ o, p.check = Except.ok o → (BaseCheck.runResult p now).error = none) := by
  constructor
  · intro e h
    unfold BaseCheck.runResult
    rw [h]
    exact ⟨rfl, rfl⟩
  · intro o h
    unfold BaseCheck.runResult
    rw [h]
    rfl

/-- C7 amended witness: a faulting probe yields `error = some "boom"`; the
timed-out `SoftwareUpdatesCheck` (a normal `ERROR` return) yields
`error = none`. -/
theorem error_field_by_path_witness :
    ((BaseCheck.runResult faultingProbe "t").status = CheckStatus.ERROR
      ∧ (BaseCheck.runResult faultingProbe "t").error = some "boom")
    ∧ (BaseCheck.runResult softwareUpdatesTimeoutProbe "t").error = none :=
  ⟨(error_field_by_path faultingProbe "t").1 "boom" rfl,
   (error_field_by_path softwareUpdatesTimeoutProbe "t").2
     (SoftwareUpdatesCheck.check SoftwareUpdatesCheck.SubprocessOutcome.timeout) rfl⟩

theorem Dashboard.foldl_append_runs (now : String) :
    ∀ (l : List Probe) (init : List CheckResult),
      l.foldl (fun results check => results ++ [BaseCheck.runResult check now]) init
        = init ++ l.map (fun p => BaseCheck.runResult p now)
  | [], init => by simp
  | c :: l, init => by
    rw [List.foldl_cons, Dashboard.foldl_append_runs now l (init ++ [BaseCheck.runResult c now])]
    simp

theorem Dashboard.run_all_checks_eq_map (checks : List Probe) (now : String) :
    Dashboard.run_all_checks checks now
      = checks.map (fun p => BaseCheck.runResult p now) := by
  unfold Dashboard.run_all_checks
  rw [Dashboard.foldl_append_runs now checks []]
  rfl

/-- C3: the orchestrator's loop returns one result per probe, in the order
the probes were supplied; position `i` of the output is the wrapped run of
probe `i`, so no probe is skipped because of an earlier failure. -/
theorem run_all_checks_ordered (probes : List Probe) (now : String) :
    (Dashboard.run_all_checks probes now).length = probes.length
    ∧ ∀ i : Nat,
        (Dashboard.run_all_checks probes now)[i]?
          = (probes[i]?).map (fun p => BaseCheck.runResult p now) := by
  rw [Dashboard.run_all_checks_eq_map]
  exact ⟨by simp, fun i => by simp⟩

theorem Dashboard.pyRoundInt_intCast (n : ℤ) : Dashboard.pyRoundInt (n : ℚ) = n := by
  unfold Dashboard.pyRoundInt
  norm_num

theorem Dashboard.pyRound1_natCast (n : ℕ) : Dashboard.pyRound1 (n : ℚ) = n := by
  unfold Dashboard.pyRound1
  have h : ((n : ℚ) * 10) = (((n * 10 : ℕ) : ℤ) : ℚ) := by push_cast; ring
  rw [h, Dashboard.pyRoundInt_intCast]
  push_cast
  ring

/-- C4: the compliance score is the rounded percentage of `PASS` results:
`0` on an empty result list (no division by zero), `100.0` when every
result is `PASS`, `0.0` when every result is `FAIL`, and
`round(passed/total*100, 1)` in general. -/
theorem compliance_score_spec (results : List CheckResult) :
    ((Dashboard.calculate_stats results).total = 0 →
      (Dashboard.calculate_stats results).compliance_score = 0)
    ∧ (0 < (Dashboard.calculate_stats results).total →
      (Dashboard.calculate_stats results).compliance_score
        = Dashboard.pyRound1
            (((Dashboard.calculate_stats results).passed : ℚ)
              / ((Dashboard.calculate_stats results).total : ℚ) * 100))
    ∧ ((∀ r ∈ results, r.status = CheckStatus.PASS) → 0 < results.length →
      (Dashboard.calculate_stats results).compliance_score = 100)
    ∧ ((∀ r ∈ results, r.status = CheckStatus.FAIL) → 0 < results.length →
      (Dashboard.calculate_stats results).compliance_score = 0) := by
  have h100 : Dashboard.pyRound1 ((100 : ℕ) : ℚ) = ((100 : ℕ) : ℚ) :=
    Dashboard.pyRound1_natCast 100
  have h0 : Dashboard.pyRound1 ((0 : ℕ) : ℚ) = ((0 : ℕ) : ℚ) :=
    Dashboard.pyRound1_natCast 0
  norm_num at h100 h0
  refine ⟨?_, ?_, ?_, ?_⟩
  · intro h
    have hlen : results.length = 0 := by
      simpa [Dashboard.calculate_stats] using h
    simp [Dashboard.calculate_stats, hlen, h0]
  · intro h
    have hlen : 0 < results.length := by
      simpa [Dashboard.calculate_stats] using h
    simp [Dashboard.calculate_stats, hlen]
  · intro hall hlen
    have hp : results.countP (fun r => r.status.value == "PASS") = results.length :=
      List.countP_eq_length.mpr (fun r hr => by simp [hall r hr, CheckStatus.value])
    have hne : (results.length : ℚ) ≠ 0 := Nat.cast_ne_zero.mpr (by omega)
    simp only [Dashboard.calculate_stats, hp, hlen, if_pos hlen, div_self hne, one_mul]
    exact h100
  · intro hall hlen
    have hp : results.countP (fun r => r.status.value == "PASS") = 0 :=
      List.countP_eq_zero.mpr (fun r hr => by simp [hall r hr, CheckStatus.value])
    simp only [Dashboard.calculate_stats, hp, hlen, if_pos hlen, Nat.cast_zero, zero_div,
      zero_mul]
    exact h0

/-- C4 witness: concrete score evaluations — empty scan, an all-`PASS`
scan, an all-`FAIL` scan, and the general formula on a non-empty scan. -/
theorem compliance_score_spec_witness :
    (Dashboard.calculate_stats []).compliance_score = 0
    ∧ (Dashboard.calculate_stats [sampleResult CheckStatus.PASS "c"]).compliance_score = 100
    ∧ (Dashboard.calculate_stats [sampleResult CheckStatus.FAIL "c"]).compliance_score = 0
    ∧ (Dashboard.calculate_stats [sampleResult CheckStatus.PASS "c"]).compliance_score
        = Dashboard.pyRound1
            (((Dashboard.calculate_stats [sampleResult CheckStatus.PASS "c"]).passed : ℚ)
              / ((Dashboard.calculate_stats [sampleResult CheckStatus.PASS "c"]).total : ℚ)
              * 100) :=
  ⟨(compliance_score_spec []).1 rfl,
   (compliance_score_spec [sampleResult CheckStatus.PASS "c"]).2.2.1
     (by simp [sampleResult]) (by simp),
   (compliance_score_spec [sampleResult CheckStatus.FAIL "c"]).2.2.2
     (by simp [sampleResult]) (by simp),
   (compliance_score_spec [sampleResult CheckStatus.PASS "c"]).2.1 (by simp [Dashboard.calculate_stats])⟩

theorem Dashboard.status_one_of (r : CheckResult) :
    (if r.status.value == "PASS" then 1 else 0)
      + (if r.status.value == "FAIL" then 1 else 0)
      + (if r.status.value == "WARNING" then 1 else 0)
      + (if r.status.value == "ERROR" then 1 else 0)
      + (if r.status.value == "NOT_APPLICABLE" then 1 else 0) = 1 := by
  cases h : r.status <;> decide

theorem Dashboard.counts_split (rs : List CheckResult) :
    rs.countP (fun r => r.status.value == "PASS")
      + rs.countP (fun r => r.status.value == "FAIL")
      + rs.countP (fun r => r.status.value == "WARNING")
      + rs.countP (fun r => r.status.value == "ERROR")
      + rs.countP (fun r => r.status.value == "NOT_APPLICABLE")
      = rs.length := by
  induction rs with
  | nil => rfl
  | cons r t ih =>
    have hone := Dashboard.status_one_of r
    simp only [List.countP_cons, List.length_cons]
    omega

/-- C5: the status counts satisfy `passed + failed + warnings ≤ total`,
with equality exactly when no result has status `ERROR` or
`NOT_APPLICABLE` — those count toward `total` only. -/
theorem counts_bound (results : List CheckResult) :
    (Dashboard.calculate_stats results).passed + (Dashboard.calculate_stats results).failed
        + (Dashboard.calculate_stats results).warnings
      ≤ (Dashboard.calculate_stats results).total
    ∧ ((Dashboard.calculate_stats results).passed + (Dashboard.calculate_stats results).failed
          + (Dashboard.calculate_stats results).warnings
        = (Dashboard.calculate_stats results).total
      ↔ ∀ r ∈ results,
          r.status ≠ CheckStatus.ERROR ∧ r.status ≠ CheckStatus.NOT_APPLICABLE) := by
  have hsplit := Dashboard.counts_split results
  simp only [Dashboard.calculate_stats]
  constructor
  · omega
  · constructor
    · intro heq r hr
      have hE : results.countP (fun r => r.status.value == "ERROR") = 0 := by omega
      have hN : results.countP (fun r => r.status.value == "NOT_APPLICABLE") = 0 := by omega
      rw [List.countP_eq_zero] at hE hN
      constructor
      · intro hcon
        exact hE r hr (by rw [hcon]; decide)
      · intro hcon
        exact hN r hr (by rw [hcon]; decide)
    · intro hall
      have hE : results.countP (fun r => r.status.value == "ERROR") = 0 :=
        List.countP_eq_zero.mpr (fun r hr hcon => by
          apply (hall r hr).1
          revert hcon
          cases hs : r.status <;> decide)
      have hN : results.countP (fun r => r.status.value == "NOT_APPLICABLE") = 0 :=
        List.countP_eq_zero.mpr (fun r hr hcon => by
          apply (hall r hr).2
          revert hcon
          cases hs : r.status <;> decide)
      omega

theorem Dashboard.groupByCategory_append (rs : List CheckResult) (r : CheckResult) :
    Dashboard.groupByCategory (rs ++ [r])
      = (if r.category ∈ (Dashboard.groupByCategory rs).map Prod.fst then
          (Dashboard.groupByCategory rs).map
            (fun g => if g.fst = r.category then (g.fst, g.snd ++ [r]) else g)
        else Dashboard.groupByCategory rs ++ [(r.category, [r])]) := by
  unfold Dashboard.groupByCategory
  rw [List.foldl_append]
  rfl

theorem Dashboard.firstSeen_append (cs : List String) (c : String) :
    Dashboard.firstSeen (cs ++ [c])
      = (if c ∈ Dashboard.firstSeen cs then Dashboard.firstSeen cs
         else Dashboard.firstSeen cs ++ [c]) := by
  unfold Dashboard.firstSeen
  rw [List.foldl_append]
  rfl

theorem Dashboard.mem_firstSeen (cs : List String) :
    ∀ c, c ∈ Dashboard.firstSeen cs ↔ c ∈ cs := by
  induction cs using List.reverseRecOn with
  | nil => intro c; simp [Dashboard.firstSeen]
  | append_singleton t x ih =>
    intro c
    rw [Dashboard.firstSeen_append]
    by_cases hx : x ∈ Dashboard.firstSeen t
    · rw [if_pos hx, ih c, List.mem_append, List.mem_singleton]
      have hxt : x ∈ t := (ih x).mp hx
      constructor
      · exact fun h => Or.inl h
      · rintro (h | rfl)
        · exact h
        · exact hxt
    · rw [if_neg hx]
      simp [List.mem_append, ih c]

theorem Dashboard.firstSeen_nodup (cs : List String) :
    (Dashboard.firstSeen cs).Nodup := by
  induction cs using List.reverseRecOn with
  | nil => simp [Dashboard.firstSeen]
  | append_singleton t x ih =>
    rw [Dashboard.firstSeen_append]
    by_cases hx : x ∈ Dashboard.firstSeen t
    · rw [if_pos hx]; exact ih
    · rw [if_neg hx]
      simp [List.nodup_append, ih, hx]

theorem Dashboard.groupByCategory_eq (results : List CheckResult) :
    Dashboard.groupByCategory results
      = (Dashboard.firstSeen (results.map (fun r => r.category))).map
          (fun c => (c, results.filter (fun r => r.category = c))) := by
  induction results using List.reverseRecOn with
  | nil => rfl
  | append_singleton rs r ih =>
    rw [Dashboard.groupByCategory_append, ih]
    simp only [List.map_append, List.map_cons, List.map_nil]
    rw [Dashboard.firstSeen_append]
    have hfst : ((Dashboard.firstSeen (rs.map (fun x => x.category))).map
          (fun c => (c, rs.filter (fun x => x.category = c)))).map Prod.fst
        = Dashboard.firstSeen (rs.map (fun x => x.category)) := by
      rw [List.map_map]
      exact List.map_id _
    rw [hfst]
    by_cases hmem : r.category ∈ Dashboard.firstSeen (rs.map (fun x => x.category))
    · rw [if_pos hmem, if_pos hmem, List.map_map]
      apply List.map_congr_left
      intro c hc
      dsimp only [Function.comp]
      by_cases hcr : c = r.category
      · rw [if_pos hcr, List.filter_append]
        subst hcr
        simp [List.filter]
      · rw [if_neg hcr, List.filter_append]
        have hrc : ¬(r.category = c) := fun h => hcr h.symm
        have : List.filter (fun x => x.category = c) [r] = [] := by
          simp [List.filter, hrc]
        rw [this, List.append_nil]
    · rw [if_neg hmem, if_neg hmem, List.map_append]
      have hold : (Dashboard.firstSeen (rs.map (fun x => x.category))).map
            (fun c => (c, (rs ++ [r]).filter (fun x => x.category = c)))
          = (Dashboard.firstSeen (rs.map (fun x => x.category))).map
              (fun c => (c, rs.filter (fun x => x.category = c))) := by
        apply List.map_congr_left
        intro c hc
        have hcr : r.category ≠ c := fun h => hmem (h ▸ hc)
        rw [List.filter_append]
        have : List.filter (fun x => x.category = c) [r] = [] := by
          simp [List.filter, hcr]
        rw [this, List.append_nil]
      rw [hold]
      have hnew : List.filter (fun x => x.category = r.category) (rs ++ [r]) = [r] := by
        rw [List.filter_append]
        have h1 : List.filter (fun x => x.category = r.category) rs = [] := by
          rw [List.filter_eq_nil_iff]
          intro a ha hcon
          apply hmem
          rw [Dashboard.mem_firstSeen]
          have : a.category ∈ rs.map (fun x => x.category) :=
            List.mem_map_of_mem _ ha
          rwa [of_decide_eq_true hcon] at this
        have h2 : List.filter (fun x => x.category = r.category) [r] = [r] := by
          simp [List.filter]
        rw [h1, h2, List.nil_append]
      rw [List.map_cons, List.map_nil, hnew]

theorem Dashboard.flatMap_filter_perm (keys : List String) (rs : List CheckResult)
    (hnd : keys.Nodup) (hcov : ∀ r ∈ rs, r.category ∈ keys) :
    (keys.flatMap (fun c => rs.filter (fun r => r.category = c))).Perm rs := by
  induction keys generalizing rs with
  | nil =>
    cases rs with
    | nil => simp
    | cons a t => exact absurd (hcov a (by simp)) (by simp)
  | cons c ks ih =>
    rw [List.flatMap_cons]
    have hnd' := List.nodup_cons.mp hnd
    have hswap : ks.flatMap (fun c2 => rs.filter (fun r => r.category = c2))
        = ks.flatMap (fun c2 =>
            (rs.filter (fun r => !(r.category = c))).filter
              (fun r => r.category = c2)) := by
      simp only [List.flatMap]
      rw [List.map_congr_left]
      intro c2 hc2
      have hne : c2 ≠ c := fun hcc => hnd'.1 (hcc ▸ hc2)
      rw [List.filter_filter]
      apply List.filter_congr
      intro a _
      by_cases h2 : a.category = c2
      · simp [h2, hne]
      · simp [h2]
    rw [hswap]
    have hcov' : ∀ x ∈ rs.filter (fun r => !(r.category = c)), x.category ∈ ks := by
      intro x hx
      rw [List.mem_filter] at hx
      have hxc : ¬(x.category = c) := by
        have := hx.2
        simpa using this
      rcases List.mem_cons.mp (hcov x hx.1) with h | h
      · exact absurd h hxc
      · exact h
    have hperm := ih (rs.filter (fun r => !(r.category = c))) hnd'.2 hcov'
    exact (hperm.append_left _).trans (List.filter_append_perm _ rs)

/-- C8: the category grouping partitions the result list — concatenating
all groups' lists in group-then-within-group order is a permutation of the
original results, each group holds exactly the results carrying its key (in
original order), and group keys appear in first-seen order. -/
theorem grouping_partition (results : List CheckResult) :
    ((Dashboard.groupByCategory results).flatMap (fun g => g.snd)).Perm results
    ∧ (∀ g ∈ Dashboard.groupByCategory results, ∀ r ∈ g.snd, r.category = g.fst)
    ∧ (Dashboard.groupByCategory results).map Prod.fst
        = Dashboard.firstSeen (results.map (fun r => r.category))
    ∧ (∀ g ∈ Dashboard.groupByCategory results,
        g.snd = results.filter (fun r => r.category = g.fst)) := by
  have hb := Dashboard.groupByCategory_eq results
  refine ⟨?_, ?_, ?_, ?_⟩
  · rw [hb]
    have hm : ((Dashboard.firstSeen (results.map (fun r => r.category))).map
          (fun c => (c, results.filter (fun r => r.category = c)))).flatMap
            (fun g => g.snd)
        = (Dashboard.firstSeen (results.map (fun r => r.category))).flatMap
            (fun c => results.filter (fun r => r.category = c)) := by
      simp only [List.flatMap, List.map_map]
      rfl
    rw [hm]
    exact Dashboard.flatMap_filter_perm _ _ (Dashboard.firstSeen_nodup _)
      (fun r hr => (Dashboard.mem_firstSeen _ _).mpr (List.mem_map_of_mem _ hr))
  · rw [hb]
    intro g hg r hr
    obtain ⟨c, _, rfl⟩ := List.mem_map.mp hg
    exact of_decide_eq_true (List.mem_filter.mp hr).2
  · rw [hb, List.map_map]
    exact List.map_id _
  · rw [hb]
    intro g hg
    obtain ⟨c, _, rfl⟩ := List.mem_map.mp hg
    rfl

/-- C5 witness: the count identity instantiated on a concrete one-element
result list with no `ERROR`/`NOT_APPLICABLE` entry. -/
theorem counts_bound_witness :
    (Dashboard.calculate_stats [sampleResult CheckStatus.PASS "c"]).passed
        + (Dashboard.calculate_stats [sampleResult CheckStatus.PASS "c"]).failed
        + (Dashboard.calculate_stats [sampleResult CheckStatus.PASS "c"]).warnings
      = (Dashboard.calculate_stats [sampleResult CheckStatus.PASS "c"]).total :=
  (counts_bound [sampleResult CheckStatus.PASS "c"]).2.mpr
    (fun r hr => by
      rw [List.mem_singleton] at hr
      subst hr
      exact ⟨by decide, by decide⟩)

/-- C8 witness: the grouping theorem instantiated on a concrete
one-element result list. -/
theorem grouping_partition_witness :
    (sampleResult CheckStatus.PASS "a").category
      = ("a", [sampleResult CheckStatus.PASS "a"]).fst :=
  (grouping_partition [sampleResult CheckStatus.PASS "a"]).2.1
    ("a", [sampleResult CheckStatus.PASS "a"])
    (by
      have h : Dashboard.groupByCategory [sampleResult CheckStatus.PASS "a"]
          = [("a", [sampleResult CheckStatus.PASS "a"])] := rfl
      rw [h]
      exact List.mem_singleton.mpr rfl)
    (sampleResult CheckStatus.PASS "a") (List.mem_singleton.mpr rfl)

end ComplianceGuard
